import Mathlib

/-!
Shallow embedding of the terraform-provider-influxdbv2 provider layer:
the provider configuration, the organization resource, the organization
data source and the bucket resource, as implemented in
`internal/provider/provider.go`, the organization resource/data-source
files and `internal/provider/bucket_resource.go`.

Terraform framework attribute values (`types.String`, `types.Int64`) are
modelled as a three-state type (`null`, `unknown`, or a known value),
matching the terraform-plugin-framework semantics of `ValueString`,
`ValueStringPointer`, `StringValue`, `StringPointerValue`, `ValueInt64`,
`Int64Value` and `IsUnknown`.  The influxdb SDK calls are external HTTP
round trips; each operation takes the SDK response (`Except String _`,
error or domain object) as an input, and the object the operation sends
to the server is exposed as a separate `...Request` definition so that
both directions of the transcription can be examined.  A lifecycle
operation ends either in an error diagnostic (title and message, state
untouched) or in a written state (`OpResult`).
-/

/-- Terraform attribute value: null, unknown (not yet resolved), or a
known value.  Mirrors `basetypes.StringValue` / `basetypes.Int64Value`. -/
inductive TFValue (α : Type) where
  | null
  | unknown
  | value (a : α)
deriving DecidableEq, Repr

/-- `types.String.ValueString()`: the known value, or `""` for null/unknown. -/
def TFValue.valueString : TFValue String → String
  | TFValue.value s => s
  | _ => ""

/-- `types.String.ValueStringPointer()`: `nil` for null/unknown, else a
pointer to the value. -/
def TFValue.valueStringPointer : TFValue String → Option String
  | TFValue.value s => some s
  | _ => none

/-- `types.Int64.ValueInt64()`: the known value, or `0` for null/unknown. -/
def TFValue.valueInt64 : TFValue Int → Int
  | TFValue.value n => n
  | _ => 0

/-- `types.StringValue(s)`. -/
def stringValue (s : String) : TFValue String := TFValue.value s

/-- `types.StringPointerValue(p)`: null when the pointer is nil. -/
def stringPointerValue : Option String → TFValue String
  | none => TFValue.null
  | some s => TFValue.value s

/-- `types.Int64Value(n)`. -/
def int64Value (n : Int) : TFValue Int := TFValue.value n

/-- `types.String.IsUnknown()`. -/
def TFValue.isUnknown : TFValue α → Bool
  | TFValue.unknown => true
  | _ => false

/-- The `String()` rendering of a framework value, as produced by `%s`
in `fmt.Sprintf` on a `types.String` struct. -/
def tfRender : TFValue String → String
  | TFValue.null => "<null>"
  | TFValue.unknown => "<unknown>"
  | TFValue.value s => "\"" ++ s ++ "\""

/-- SDK `domain.Organization` (the fields this provider touches).
`CreatedAt`/`UpdatedAt` hold the rendered `time.Time.String()` text,
since the provider only ever uses that rendering. -/
structure DomainOrganization where
  Id : Option String
  Name : String
  Description : Option String
  Status : Option String
  CreatedAt : String
  UpdatedAt : String
deriving DecidableEq, Repr

/-- SDK `domain.RetentionRule`.  `RuleType` embeds the Go field `Type`
(a `*domain.RetentionRuleType`, an enumerated string pointer). -/
structure DomainRetentionRule where
  EverySeconds : Int
  RuleType : Option String
deriving DecidableEq, Repr

/-- SDK `domain.Bucket` (the fields this provider touches). -/
structure DomainBucket where
  Id : Option String
  Name : String
  Description : Option String
  OrgID : Option String
  Rp : Option String
  RetentionRules : List DomainRetentionRule
  SchemaType : Option String
  CreatedAt : String
  UpdatedAt : String
deriving DecidableEq, Repr

/-- `organizationResourceModel`. -/
structure organizationResourceModel where
  Name : TFValue String
  Id : TFValue String
  Description : TFValue String
  Status : TFValue String
  CreatedAt : TFValue String
  UpdatedAt : TFValue String
deriving DecidableEq, Repr

/-- `OrganizationDataSourceModel`. -/
structure OrganizationDataSourceModel where
  Name : TFValue String
  Id : TFValue String
  Description : TFValue String
  Status : TFValue String
  CreatedAt : TFValue String
  UpdatedAt : TFValue String
deriving DecidableEq, Repr

/-- `bucketRetentionRulesModel`. -/
structure bucketRetentionRulesModel where
  EverySeconds : TFValue Int
  RetentionType : TFValue String
deriving DecidableEq, Repr

/-- `bucketResourceModel` (field spellings as in the source). -/
structure bucketResourceModel where
  Name : TFValue String
  Id : TFValue String
  OrgID : TFValue String
  Description : TFValue String
  RetentioRules : List bucketRetentionRulesModel
  RP : TFValue String
  ScehmaType : TFValue String
  CreatedAt : TFValue String
  UpdatedAt : TFValue String
deriving DecidableEq, Repr

/-- Outcome of one lifecycle operation: an error diagnostic was added and
the operation returned without writing state, or the new state was written. -/
inductive OpResult (σ : Type) where
  | error (title message : String)
  | ok (state : σ)
deriving DecidableEq, Repr

/-- The state an operation wrote, if it wrote one. -/
def resultState : OpResult σ → Option σ
  | OpResult.error _ _ => none
  | OpResult.ok s => some s

/-- `organizationResource.Create`: the `domain.Organization` sent to
`CreateOrganization` (remaining fields are the Go zero values). -/
def organizationCreateRequest (state : organizationResourceModel) : DomainOrganization :=
  { Id := none
    Name := state.Name.valueString
    Description := state.Description.valueStringPointer
    Status := none
    CreatedAt := ""
    UpdatedAt := "" }

/-- `organizationResource.Create`, from the plan model and the SDK
response to `CreateOrganization`. -/
def organizationCreate (state : organizationResourceModel)
    (response : Except String DomainOrganization) :
    OpResult organizationResourceModel :=
  match response with
  | Except.error err =>
      OpResult.error "Error creating organization" ("Error: " ++ err)
  | Except.ok newOrganization =>
      let state := { state with Id := stringPointerValue newOrganization.Id }
      let state := { state with Name := stringValue newOrganization.Name }
      let state := { state with Description := stringPointerValue newOrganization.Description }
      let state := { state with Status := stringPointerValue newOrganization.Status }
      let state := { state with CreatedAt := stringValue newOrganization.CreatedAt }
      let state := { state with UpdatedAt := stringValue newOrganization.UpdatedAt }
      OpResult.ok state

/-- `organizationResource.Read`, from the prior state and the SDK
response to `FindOrganizationByID` (note: `Name` is not reassigned). -/
def organizationRead (state : organizationResourceModel)
    (response : Except String DomainOrganization) :
    OpResult organizationResourceModel :=
  match response with
  | Except.error err =>
      OpResult.error "Error reading organization"
        ("Could not read organization " ++ tfRender state.Name ++
          " with ID " ++ tfRender state.Id ++ " : " ++ err)
  | Except.ok organization =>
      let state := { state with Id := stringPointerValue organization.Id }
      let state := { state with Description := stringPointerValue organization.Description }
      let state := { state with Status := stringPointerValue organization.Status }
      let state := { state with CreatedAt := stringValue organization.CreatedAt }
      let state := { state with UpdatedAt := stringValue organization.UpdatedAt }
      OpResult.ok state

/-- `organizationResource.Update`: the object pushed to
`UpdateOrganization` — the fetched organization with name and
description replaced by the plan values. -/
def organizationUpdateRequest (plan : organizationResourceModel)
    (organization : DomainOrganization) : DomainOrganization :=
  { organization with
      Name := plan.Name.valueString
      Description := plan.Description.valueStringPointer }

/-- `organizationResource.Update`, from the plan, the prior state, the
SDK response to `FindOrganizationByID` and the `UpdateOrganization`
call (a function of the pushed object). -/
def organizationUpdate (plan state : organizationResourceModel)
    (findResponse : Except String DomainOrganization)
    (updateCall : DomainOrganization → Except String DomainOrganization) :
    OpResult organizationResourceModel :=
  match findResponse with
  | Except.error err =>
      OpResult.error "Error reading organization"
        ("Could not read organization " ++ tfRender plan.Name ++
          " with ID " ++ state.Id.valueString ++ " : " ++ err)
  | Except.ok organization =>
      if organization.Id = none then
        OpResult.error "Error reading organization"
          ("Could not read organization " ++ tfRender plan.Name ++
            " with ID " ++ state.Id.valueString ++ " : Organization not found")
      else
        match updateCall (organizationUpdateRequest plan organization) with
        | Except.error err =>
            OpResult.error "Error updating organization"
              ("Could not update organization " ++ tfRender plan.Name ++
                " with ID " ++ tfRender plan.Id ++ " : " ++ err)
        | Except.ok organization =>
            let plan := { plan with Id := stringPointerValue organization.Id }
            let plan := { plan with Description := stringPointerValue organization.Description }
            let plan := { plan with Status := stringPointerValue organization.Status }
            let plan := { plan with CreatedAt := stringValue organization.CreatedAt }
            let plan := { plan with UpdatedAt := stringValue organization.UpdatedAt }
            OpResult.ok plan

/-- `organizationResource.Delete`, from the prior state and the SDK
response to `DeleteOrganizationWithID` (the error title and message are
the source's, copy-paste wording included). -/
def organizationDelete (state : organizationResourceModel)
    (response : Except String Unit) : OpResult Unit :=
  match response with
  | Except.error err =>
      OpResult.error "Error deleteing organization"
        ("Could not update organization " ++ tfRender state.Name ++
          " with ID " ++ tfRender state.Id ++ " : " ++ err)
  | Except.ok _ => OpResult.ok ()

/-- `organizationDataSource.Read`, from the configuration model and the
SDK response to `FindOrganizationByName`.  The source assigns
`state.Description` twice in a row — first from the response description,
then from the response status — and never assigns `state.Status`; the
two `let` steps mirror those two assignments. -/
def organizationDataSourceRead (state : OrganizationDataSourceModel)
    (response : Except String DomainOrganization) :
    OpResult OrganizationDataSourceModel :=
  match response with
  | Except.error err =>
      OpResult.error "Error on request" ("Error: " ++ err)
  | Except.ok organization =>
      let state := { state with Id := stringPointerValue organization.Id }
      let state := { state with Description := stringPointerValue organization.Description }
      let state := { state with Description := stringPointerValue organization.Status }
      let state := { state with CreatedAt := stringValue organization.CreatedAt }
      let state := { state with UpdatedAt := stringValue organization.UpdatedAt }
      OpResult.ok state

/-- Modelled from the spec: the SDK lookup `FindOrganizationByName`
(external dependency `influxdb-client-go`, not part of src/) resolves an
organization by name against the remote directory and "fails if no
organization with that name exists". -/
def findOrganizationByName (organizations : List DomainOrganization)
    (name : String) : Except String DomainOrganization :=
  match organizations.find? (fun o => o.Name == name) with
  | some organization => Except.ok organization
  | none => Except.error ("organization " ++ name ++ " not found")

/-- The element-wise transcription of local retention rules to SDK
`domain.RetentionRule`s, as performed by the loops in
`bucketResource.Create` and `bucketResource.Update`. -/
def retentionRulesToRemote (rules : List bucketRetentionRulesModel) :
    List DomainRetentionRule :=
  rules.map fun rule =>
    { EverySeconds := rule.EverySeconds.valueInt64
      RuleType := rule.RetentionType.valueStringPointer }

/-- The element-wise transcription of SDK retention rules back to the
local model, as performed by the loops in `bucketResource.Create` and
`bucketResource.Read`. -/
def retentionRulesToLocal (rules : List DomainRetentionRule) :
    List bucketRetentionRulesModel :=
  rules.map fun rule =>
    { EverySeconds := int64Value rule.EverySeconds
      RetentionType := stringPointerValue rule.RuleType }

/-- `bucketResource.Create`: the `domain.Bucket` sent to `CreateBucket`
(remaining fields are the Go zero values). -/
def bucketCreateRequest (state : bucketResourceModel) : DomainBucket :=
  { Id := none
    Name := state.Name.valueString
    Description := state.Description.valueStringPointer
    OrgID := state.OrgID.valueStringPointer
    Rp := state.RP.valueStringPointer
    RetentionRules := retentionRulesToRemote state.RetentioRules
    SchemaType := none
    CreatedAt := ""
    UpdatedAt := "" }

/-- `bucketResource.Create`, from the plan model and the SDK response to
`CreateBucket`. -/
def bucketCreate (state : bucketResourceModel)
    (response : Except String DomainBucket) : OpResult bucketResourceModel :=
  match response with
  | Except.error err =>
      OpResult.error "Error creating bucket" ("Error: " ++ err)
  | Except.ok newBucket =>
      let state := { state with Id := stringPointerValue newBucket.Id }
      let state := { state with Name := stringValue newBucket.Name }
      let state := { state with Description := stringPointerValue newBucket.Description }
      let state := { state with OrgID := stringPointerValue newBucket.OrgID }
      let state := { state with RP := stringPointerValue newBucket.Rp }
      let state := { state with RetentioRules := retentionRulesToLocal newBucket.RetentionRules }
      let state := { state with ScehmaType := stringPointerValue newBucket.SchemaType }
      let state := { state with CreatedAt := stringValue newBucket.CreatedAt }
      let state := { state with UpdatedAt := stringValue newBucket.UpdatedAt }
      OpResult.ok state

/-- `bucketResource.Read`, from the prior state and the SDK response to
`FindBucketByID` (every model field is reassigned from the response). -/
def bucketRead (state : bucketResourceModel)
    (response : Except String DomainBucket) : OpResult bucketResourceModel :=
  match response with
  | Except.error err =>
      OpResult.error "Error reading bucket"
        ("Could not read bucket " ++ tfRender state.Name ++
          " with ID " ++ tfRender state.Id ++ " : " ++ err)
  | Except.ok bucket =>
      let state := { state with Id := stringPointerValue bucket.Id }
      let state := { state with Name := stringValue bucket.Name }
      let state := { state with Description := stringPointerValue bucket.Description }
      let state := { state with OrgID := stringPointerValue bucket.OrgID }
      let state := { state with RP := stringPointerValue bucket.Rp }
      let state := { state with RetentioRules := retentionRulesToLocal bucket.RetentionRules }
      let state := { state with ScehmaType := stringPointerValue bucket.SchemaType }
      let state := { state with CreatedAt := stringValue bucket.CreatedAt }
      let state := { state with UpdatedAt := stringValue bucket.UpdatedAt }
      OpResult.ok state

/-- `bucketResource.Update`: the object pushed to `UpdateBucket` — the
fetched bucket with name and description replaced by the plan values,
and the retention-rule list rebuilt from the PRIOR STATE's rules
(the source loops over `state.RetentioRules`, not the plan's). -/
def bucketUpdateRequest (plan state : bucketResourceModel)
    (bucket : DomainBucket) : DomainBucket :=
  { bucket with
      Name := plan.Name.valueString
      Description := plan.Description.valueStringPointer
      RetentionRules := retentionRulesToRemote state.RetentioRules }

/-- `bucketResource.Update`, from the plan, the prior state, the SDK
response to `FindBucketByID` and the `UpdateBucket` call (a function of
the pushed object).  On success, only `Id`, `Description`, `CreatedAt`
and `UpdatedAt` of the plan are reassigned before the plan is written. -/
def bucketUpdate (plan state : bucketResourceModel)
    (findResponse : Except String DomainBucket)
    (updateCall : DomainBucket → Except String DomainBucket) :
    OpResult bucketResourceModel :=
  match findResponse with
  | Except.error err =>
      OpResult.error "Error reading bucket"
        ("Could not read bucket " ++ tfRender plan.Name ++
          " with ID " ++ state.Id.valueString ++ " : " ++ err)
  | Except.ok bucket =>
      if bucket.Id = none then
        OpResult.error "Error reading bucket"
          ("Could not read bucket " ++ tfRender plan.Name ++
            " with ID " ++ state.Id.valueString ++ " : Bucket not found")
      else
        match updateCall (bucketUpdateRequest plan state bucket) with
        | Except.error err =>
            OpResult.error "Error updating bucket"
              ("Could not update bucket " ++ tfRender plan.Name ++
                " with ID " ++ tfRender plan.Id ++ " : " ++ err)
        | Except.ok bucket =>
            let plan := { plan with Id := stringPointerValue bucket.Id }
            let plan := { plan with Description := stringPointerValue bucket.Description }
            let plan := { plan with CreatedAt := stringValue bucket.CreatedAt }
            let plan := { plan with UpdatedAt := stringValue bucket.UpdatedAt }
            OpResult.ok plan

/-- `bucketResource.Delete`, from the prior state and the SDK response
to `DeleteBucketWithID` (the error title and message are the source's,
copy-paste wording included). -/
def bucketDelete (state : bucketResourceModel)
    (response : Except String Unit) : OpResult Unit :=
  match response with
  | Except.error err =>
      OpResult.error "Error deleteing bucket"
        ("Could not update bucket " ++ tfRender state.Name ++
          " with ID " ++ tfRender state.Id ++ " : " ++ err)
  | Except.ok _ => OpResult.ok ()

/-- `InfluxdbV2ProviderModel`. -/
structure InfluxdbV2ProviderModel where
  Host : TFValue String
  ApiKey : TFValue String
deriving DecidableEq, Repr

/-- The client handle produced by `influxdb2.NewClient(host, token)`
(construction only records the pair; no connection is attempted). -/
structure InfluxClient where
  serverURL : String
  authToken : String
deriving DecidableEq, Repr

/-- `influxdb2.NewClient`. -/
def newClient (serverURL authToken : String) : InfluxClient :=
  { serverURL := serverURL, authToken := authToken }

/-- The outcome of `InfluxdbV2Provider.Configure`: the diagnostics added
and the client handles handed to data sources and resources. -/
structure ConfigureResponse where
  Diagnostics : List (String × String)
  DataSourceData : Option InfluxClient
  ResourceData : Option InfluxClient
deriving DecidableEq, Repr

/-- `InfluxdbV2Provider.Configure`, from the parsed configuration model.
The source adds an attribute error when the host is unknown but does NOT
return early: it proceeds to build the client and assign it to both
`resp.DataSourceData` and `resp.ResourceData` unconditionally. -/
def providerConfigure (config : InfluxdbV2ProviderModel) : ConfigureResponse :=
  let diagnostics :=
    if config.Host.isUnknown then
      [("Unknown InfluxdbV2 API Host",
        "The provider cannot create the InfluxdbV2 API client as there is an unknown configuration value for the Influxdb API host. Either target apply the source of the value first, set the value statically in the configuration, or use the HASHICUPS_HOST environment variable.")]
    else []
  let influxHost := config.Host.valueString
  let influxCredential := config.ApiKey.valueString
  let influxClient := newClient influxHost influxCredential
  { Diagnostics := diagnostics
    DataSourceData := some influxClient
    ResourceData := some influxClient }

/-- One attribute of a resource schema: its requiredness flags, as
declared in the `Schema` methods. -/
structure AttributeSchema where
  attrName : String
  required : Bool
  optional : Bool
  computed : Bool
deriving DecidableEq, Repr

/-- `bucketResource.Schema`: the attribute requiredness table. -/
def bucketSchemaAttributes : List AttributeSchema :=
  [ { attrName := "name", required := true, optional := false, computed := false }
  , { attrName := "id", required := false, optional := false, computed := true }
  , { attrName := "org_id", required := true, optional := false, computed := false }
  , { attrName := "description", required := false, optional := true, computed := false }
  , { attrName := "retention_rules", required := true, optional := false, computed := false }
  , { attrName := "rp", required := false, optional := true, computed := false }
  , { attrName := "schema_type", required := false, optional := true, computed := false }
  , { attrName := "created_at", required := false, optional := false, computed := true }
  , { attrName := "updated_at", required := false, optional := false, computed := true } ]

/-- A retention rule as the framework hands it to the provider under the
schema's `Required` flags: `every_seconds` carries a known value and
`retention_type` is resolved (not unknown). -/
def wellFormedRule (r : bucketRetentionRulesModel) : Bool :=
  (match r.EverySeconds with
    | TFValue.value _ => true
    | _ => false)
  && (match r.RetentionType with
    | TFValue.unknown => false
    | _ => true)

/-!  Theorems about the claims. -/

/-- C1 (counterexample): a successful organization Read does NOT
overwrite the `name` field from the fresh response — with prior name
`"oldname"` and response name `"newname"`, the written state still
carries `"oldname"`, refuting "every field ... equals the corresponding
field of the fresh response". -/
theorem organizationRead_keeps_stale_name :
    Option.map organizationResourceModel.Name
      (resultState (organizationRead
        { Name := TFValue.value "oldname", Id := TFValue.value "org1",
          Description := TFValue.null, Status := TFValue.null,
          CreatedAt := TFValue.null, UpdatedAt := TFValue.null }
        (Except.ok
          { Id := some "org1", Name := "newname", Description := none,
            Status := some "active", CreatedAt := "tc", UpdatedAt := "tu" })))
      ≠ some (stringValue "newname") := by
  decide

/-- C1 (amended): for every organization Read that receives a successful
SDK response, the written state takes `id`, `description`, `status`,
`created_at` and `updated_at` from the fresh response, while `name` is
left at its prior-state value (it is never reassigned on the read path). -/
theorem organizationRead_overwrites_all_fields_except_name
    (state : organizationResourceModel) (organization : DomainOrganization) :
    Option.map organizationResourceModel.Name
        (resultState (organizationRead state (Except.ok organization))) = some state.Name ∧
    Option.map organizationResourceModel.Id
        (resultState (organizationRead state (Except.ok organization))) =
      some (stringPointerValue organization.Id) ∧
    Option.map organizationResourceModel.Description
        (resultState (organizationRead state (Except.ok organization))) =
      some (stringPointerValue organization.Description) ∧
    Option.map organizationResourceModel.Status
        (resultState (organizationRead state (Except.ok organization))) =
      some (stringPointerValue organization.Status) ∧
    Option.map organizationResourceModel.CreatedAt
        (resultState (organizationRead state (Except.ok organization))) =
      some (stringValue organization.CreatedAt) ∧
    Option.map organizationResourceModel.UpdatedAt
        (resultState (organizationRead state (Except.ok organization))) =
      some (stringValue organization.UpdatedAt) :=
  ⟨rfl, rfl, rfl, rfl, rfl, rfl⟩

/-- C2 (code bug): on a bucket Update with plan retention rules
`[{3600, expire}]` and prior-state rules `[{2592000, expire}]`, the
object pushed to `UpdateBucket` carries the PRIOR STATE's rules
`[{2592000, expire}]` — not the plan's transcoded `[{3600, expire}]` —
while the state the operation then writes claims the plan's rules.  The
saved local state and the pushed request disagree. -/
theorem bucketUpdate_pushes_stale_retention_rules :
    (bucketUpdateRequest
        { Name := TFValue.value "b", Id := TFValue.value "bid",
          OrgID := TFValue.value "oid", Description := TFValue.null,
          RetentioRules := [{ EverySeconds := int64Value 3600,
                              RetentionType := stringValue "expire" }],
          RP := TFValue.null, ScehmaType := TFValue.null,
          CreatedAt := TFValue.null, UpdatedAt := TFValue.null }
        { Name := TFValue.value "b", Id := TFValue.value "bid",
          OrgID := TFValue.value "oid", Description := TFValue.null,
          RetentioRules := [{ EverySeconds := int64Value 2592000,
                              RetentionType := stringValue "expire" }],
          RP := TFValue.null, ScehmaType := TFValue.null,
          CreatedAt := TFValue.null, UpdatedAt := TFValue.null }
        { Id := some "bid", Name := "b", Description := none,
          OrgID := some "oid", Rp := none,
          RetentionRules := [{ EverySeconds := 2592000, RuleType := some "expire" }],
          SchemaType := none, CreatedAt := "tc", UpdatedAt := "tu" }).RetentionRules
      = [{ EverySeconds := 2592000, RuleType := some "expire" }] ∧
    retentionRulesToRemote
        [{ EverySeconds := int64Value 3600, RetentionType := stringValue "expire" }]
      = [{ EverySeconds := 3600, RuleType := some "expire" }] ∧
    Option.map bucketResourceModel.RetentioRules
      (resultState (bucketUpdate
        { Name := TFValue.value "b", Id := TFValue.value "bid",
          OrgID := TFValue.value "oid", Description := TFValue.null,
          RetentioRules := [{ EverySeconds := int64Value 3600,
                              RetentionType := stringValue "expire" }],
          RP := TFValue.null, ScehmaType := TFValue.null,
          CreatedAt := TFValue.null, UpdatedAt := TFValue.null }
        { Name := TFValue.value "b", Id := TFValue.value "bid",
          OrgID := TFValue.value "oid", Description := TFValue.null,
          RetentioRules := [{ EverySeconds := int64Value 2592000,
                              RetentionType := stringValue "expire" }],
          RP := TFValue.null, ScehmaType := TFValue.null,
          CreatedAt := TFValue.null, UpdatedAt := TFValue.null }
        (Except.ok
          { Id := some "bid", Name := "b", Description := none,
            OrgID := some "oid", Rp := none,
            RetentionRules := [{ EverySeconds := 2592000, RuleType := some "expire" }],
            SchemaType := none, CreatedAt := "tc", UpdatedAt := "tu" })
        Except.ok))
      = some [{ EverySeconds := int64Value 3600, RetentionType := stringValue "expire" }] := by
  refine ⟨rfl, rfl, ?_⟩
  decide

/-- C3 (counterexample): a successful organization Read whose fetched
entity has no identifier reports no error and still writes state (with a
null id) — the missing-identifier check is absent from the read path. -/
theorem organizationRead_accepts_missing_id :
    resultState (organizationRead
      { Name := TFValue.value "myorg", Id := TFValue.value "org1",
        Description := TFValue.null, Status := TFValue.null,
        CreatedAt := TFValue.null, UpdatedAt := TFValue.null }
      (Except.ok
        { Id := none, Name := "myorg", Description := none,
          Status := none, CreatedAt := "tc", UpdatedAt := "tu" })) ≠ none := by
  decide

/-- C3 (amended): the missing-identifier ("not found") check is
performed only on the Update path of each resource — both Updates abort
with a not-found error on a nil fetched id — while the Read paths of
both resources perform no such check and write the fetched entity (a
null id included) into state. -/
theorem missing_id_check_is_update_only :
    (∀ (plan state : organizationResourceModel) (o : DomainOrganization) updateCall,
        organizationUpdate plan state (Except.ok { o with Id := none }) updateCall =
          OpResult.error "Error reading organization"
            ("Could not read organization " ++ tfRender plan.Name ++
              " with ID " ++ state.Id.valueString ++ " : Organization not found")) ∧
    (∀ (plan state : bucketResourceModel) (b : DomainBucket) updateCall,
        bucketUpdate plan state (Except.ok { b with Id := none }) updateCall =
          OpResult.error "Error reading bucket"
            ("Could not read bucket " ++ tfRender plan.Name ++
              " with ID " ++ state.Id.valueString ++ " : Bucket not found")) ∧
    (∀ (state : organizationResourceModel) (o : DomainOrganization),
        Option.map organizationResourceModel.Id
          (resultState (organizationRead state (Except.ok { o with Id := none }))) =
        some TFValue.null) ∧
    (∀ (state : bucketResourceModel) (b : DomainBucket),
        Option.map bucketResourceModel.Id
          (resultState (bucketRead state (Except.ok { b with Id := none }))) =
        some TFValue.null) :=
  ⟨fun _ _ _ _ => rfl, fun _ _ _ _ => rfl, fun _ _ => rfl, fun _ _ => rfl⟩

/-- C4 (counterexample): a bucket Update whose fresh response carries
`org_id = "server-org"` (and rp `"serverrp"`, schema-type `"implicit"`)
leaves the written state's `org_id` at the caller's plan value
`"plan-org"`, not at the server's latest value — the plan's stale value
survives for the fields outside `{id, description, timestamps}`. -/
theorem bucketUpdate_keeps_stale_org_id :
    Option.map bucketResourceModel.OrgID
      (resultState (bucketUpdate
        { Name := TFValue.value "b", Id := TFValue.value "bid",
          OrgID := TFValue.value "plan-org", Description := TFValue.null,
          RetentioRules := [], RP := TFValue.value "planrp",
          ScehmaType := TFValue.null,
          CreatedAt := TFValue.null, UpdatedAt := TFValue.null }
        { Name := TFValue.value "b", Id := TFValue.value "bid",
          OrgID := TFValue.value "plan-org", Description := TFValue.null,
          RetentioRules := [], RP := TFValue.value "planrp",
          ScehmaType := TFValue.null,
          CreatedAt := TFValue.null, UpdatedAt := TFValue.null }
        (Except.ok
          { Id := some "bid", Name := "b", Description := none,
            OrgID := some "server-org", Rp := some "serverrp",
            RetentionRules := [], SchemaType := some "implicit",
            CreatedAt := "tc", UpdatedAt := "tu" })
        (fun _ => Except.ok
          { Id := some "bid", Name := "b", Description := none,
            OrgID := some "server-org", Rp := some "serverrp",
            RetentionRules := [], SchemaType := some "implicit",
            CreatedAt := "tc2", UpdatedAt := "tu2" })))
      ≠ some (stringPointerValue (some "server-org")) := by
  decide

/-- C4 (amended): after a successful bucket Update, only `id`,
`description`, `created_at` and `updated_at` of the written state come
from the fresh response; `org_id`, the retention-policy tag `rp`,
`schema_type` — and also `name` and the retention-rule list — are left
at the caller's plan values. -/
theorem bucketUpdate_refreshes_only_id_description_timestamps
    (plan state : bucketResourceModel) (b b2 : DomainBucket) (i : String) :
    Option.map bucketResourceModel.Id
        (resultState (bucketUpdate plan state (Except.ok { b with Id := some i })
          (fun _ => Except.ok b2))) = some (stringPointerValue b2.Id) ∧
    Option.map bucketResourceModel.Description
        (resultState (bucketUpdate plan state (Except.ok { b with Id := some i })
          (fun _ => Except.ok b2))) = some (stringPointerValue b2.Description) ∧
    Option.map bucketResourceModel.CreatedAt
        (resultState (bucketUpdate plan state (Except.ok { b with Id := some i })
          (fun _ => Except.ok b2))) = some (stringValue b2.CreatedAt) ∧
    Option.map bucketResourceModel.UpdatedAt
        (resultState (bucketUpdate plan state (Except.ok { b with Id := some i })
          (fun _ => Except.ok b2))) = some (stringValue b2.UpdatedAt) ∧
    Option.map bucketResourceModel.OrgID
        (resultState (bucketUpdate plan state (Except.ok { b with Id := some i })
          (fun _ => Except.ok b2))) = some plan.OrgID ∧
    Option.map bucketResourceModel.RP
        (resultState (bucketUpdate plan state (Except.ok { b with Id := some i })
          (fun _ => Except.ok b2))) = some plan.RP ∧
    Option.map bucketResourceModel.ScehmaType
        (resultState (bucketUpdate plan state (Except.ok { b with Id := some i })
          (fun _ => Except.ok b2))) = some plan.ScehmaType ∧
    Option.map bucketResourceModel.Name
        (resultState (bucketUpdate plan state (Except.ok { b with Id := some i })
          (fun _ => Except.ok b2))) = some plan.Name ∧
    Option.map bucketResourceModel.RetentioRules
        (resultState (bucketUpdate plan state (Except.ok { b with Id := some i })
          (fun _ => Except.ok b2))) = some plan.RetentioRules :=
  ⟨rfl, rfl, rfl, rfl, rfl, rfl, rfl, rfl, rfl⟩

/-- C5 (counterexample): with an unknown host, `Configure` does add the
configuration error diagnostic, but it still constructs the client and
hands it to both resources and data sources — it does not abort. -/
theorem providerConfigure_unknown_host_still_hands_client :
    (providerConfigure { Host := TFValue.unknown, ApiKey := TFValue.value "token" }).Diagnostics
        ≠ [] ∧
    (providerConfigure { Host := TFValue.unknown, ApiKey := TFValue.value "token" }).ResourceData
        ≠ none ∧
    (providerConfigure { Host := TFValue.unknown, ApiKey := TFValue.value "token" }).DataSourceData
        ≠ none := by
  refine ⟨?_, ?_, ?_⟩ <;> decide

/-- C5 (amended): for every configuration whose host is unknown,
`Configure` reports the unknown-host configuration error diagnostic, and
nonetheless constructs the client (from the empty host string the
unknown value renders to) and assigns it to both `DataSourceData` and
`ResourceData`; there is no early return on that diagnostic. -/
theorem providerConfigure_unknown_host_reports_and_proceeds
    (apiKey : TFValue String) :
    (providerConfigure { Host := TFValue.unknown, ApiKey := apiKey }).Diagnostics ≠ [] ∧
    (providerConfigure { Host := TFValue.unknown, ApiKey := apiKey }).DataSourceData =
      some (newClient "" apiKey.valueString) ∧
    (providerConfigure { Host := TFValue.unknown, ApiKey := apiKey }).ResourceData =
      some (newClient "" apiKey.valueString) := by
  refine ⟨?_, rfl, rfl⟩
  simp [providerConfigure, TFValue.isUnknown]

/-- Helper for the retention-rule round trip: one well-formed rule
survives the local → remote → local transcription unchanged. -/
theorem wellFormedRule_roundtrip (r : bucketRetentionRulesModel)
    (h : wellFormedRule r = true) :
    ({ EverySeconds := int64Value r.EverySeconds.valueInt64,
       RetentionType := stringPointerValue r.RetentionType.valueStringPointer }
      : bucketRetentionRulesModel) = r := by
  obtain ⟨es, rt⟩ := r
  cases es <;> cases rt <;>
    simp_all [wellFormedRule, int64Value, TFValue.valueInt64,
      TFValue.valueStringPointer, stringPointerValue]

/-- C6: transcoding a retention-rule list to the remote form (integer
seconds plus retention-type per element, as done by the Create/Update
loops) and transcoding the result back (as done by the Create/Read
loops) returns the original list — same length, same order, same
per-element values — for every list of rules as the schema's `Required`
flags deliver them (known `every_seconds`, resolved `retention_type`). -/
theorem retention_rules_roundtrip (rules : List bucketRetentionRulesModel)
    (h : rules.all wellFormedRule = true) :
    retentionRulesToLocal (retentionRulesToRemote rules) = rules := by
  induction rules with
  | nil => rfl
  | cons r rs ih =>
      rw [List.all_cons, Bool.and_eq_true] at h
      have hr := wellFormedRule_roundtrip r h.1
      have hrs := ih h.2
      show ({ EverySeconds := int64Value r.EverySeconds.valueInt64,
              RetentionType := stringPointerValue r.RetentionType.valueStringPointer }
            : bucketRetentionRulesModel)
          :: retentionRulesToLocal (retentionRulesToRemote rs) = r :: rs
      rw [hr, hrs]

/-- C6 (witness): the round trip evaluated on the spec's scenario rule
`{every_seconds: 2592000, retention_type: "expire"}`. -/
theorem retention_rules_roundtrip_witness :
    ([{ EverySeconds := int64Value 2592000, RetentionType := stringValue "expire" }]
        : List bucketRetentionRulesModel).all wellFormedRule = true ∧
    retentionRulesToLocal (retentionRulesToRemote
        [{ EverySeconds := int64Value 2592000, RetentionType := stringValue "expire" }]) =
      [{ EverySeconds := int64Value 2592000, RetentionType := stringValue "expire" }] :=
  ⟨by decide, retention_rules_roundtrip _ (by decide)⟩

/-- C7: every operation of both resources and of the data source turns
an SDK error into an error diagnostic that wraps the SDK error text with
operation and entity context, and ends in `OpResult.error` — so no state
is written (`resultState` of an `OpResult.error` is `none` by
definition), nothing is retried, and the failure is fatal to that
operation.  For the two-call Update paths both the find error and the
update-call error are covered. -/
theorem sdk_error_is_fatal_everywhere :
    (∀ (state : organizationResourceModel) (err : String),
        organizationCreate state (Except.error err) =
          OpResult.error "Error creating organization" ("Error: " ++ err)) ∧
    (∀ (state : organizationResourceModel) (err : String),
        organizationRead state (Except.error err) =
          OpResult.error "Error reading organization"
            ("Could not read organization " ++ tfRender state.Name ++
              " with ID " ++ tfRender state.Id ++ " : " ++ err)) ∧
    (∀ (plan state : organizationResourceModel) (err : String) updateCall,
        organizationUpdate plan state (Except.error err) updateCall =
          OpResult.error "Error reading organization"
            ("Could not read organization " ++ tfRender plan.Name ++
              " with ID " ++ state.Id.valueString ++ " : " ++ err)) ∧
    (∀ (plan state : organizationResourceModel) (o : DomainOrganization)
        (i err : String),
        organizationUpdate plan state (Except.ok { o with Id := some i })
            (fun _ => Except.error err) =
          OpResult.error "Error updating organization"
            ("Could not update organization " ++ tfRender plan.Name ++
              " with ID " ++ tfRender plan.Id ++ " : " ++ err)) ∧
    (∀ (state : organizationResourceModel) (err : String),
        organizationDelete state (Except.error err) =
          OpResult.error "Error deleteing organization"
            ("Could not update organization " ++ tfRender state.Name ++
              " with ID " ++ tfRender state.Id ++ " : " ++ err)) ∧
    (∀ (state : OrganizationDataSourceModel) (err : String),
        organizationDataSourceRead state (Except.error err) =
          OpResult.error "Error on request" ("Error: " ++ err)) ∧
    (∀ (state : bucketResourceModel) (err : String),
        bucketCreate state (Except.error err) =
          OpResult.error "Error creating bucket" ("Error: " ++ err)) ∧
    (∀ (state : bucketResourceModel) (err : String),
        bucketRead state (Except.error err) =
          OpResult.error "Error reading bucket"
            ("Could not read bucket " ++ tfRender state.Name ++
              " with ID " ++ tfRender state.Id ++ " : " ++ err)) ∧
    (∀ (plan state : bucketResourceModel) (err : String) updateCall,
        bucketUpdate plan state (Except.error err) updateCall =
          OpResult.error "Error reading bucket"
            ("Could not read bucket " ++ tfRender plan.Name ++
              " with ID " ++ state.Id.valueString ++ " : " ++ err)) ∧
    (∀ (plan state : bucketResourceModel) (b : DomainBucket) (i err : String),
        bucketUpdate plan state (Except.ok { b with Id := some i })
            (fun _ => Except.error err) =
          OpResult.error "Error updating bucket"
            ("Could not update bucket " ++ tfRender plan.Name ++
              " with ID " ++ tfRender plan.Id ++ " : " ++ err)) ∧
    (∀ (state : bucketResourceModel) (err : String),
        bucketDelete state (Except.error err) =
          OpResult.error "Error deleteing bucket"
            ("Could not update bucket " ++ tfRender state.Name ++
              " with ID " ++ tfRender state.Id ++ " : " ++ err)) :=
  ⟨fun _ _ => rfl, fun _ _ => rfl, fun _ _ _ _ => rfl, fun _ _ _ _ _ => rfl,
    fun _ _ => rfl, fun _ _ => rfl, fun _ _ => rfl, fun _ _ => rfl,
    fun _ _ _ _ => rfl, fun _ _ _ _ _ => rfl, fun _ _ => rfl⟩

/-- C8: an organization lookup-by-name through the data source against a
remote directory in which no organization carries the requested name
ends in an error diagnostic — never in an empty success.  The
`findOrganizationByName` lookup is the spec-modelled SDK behavior. -/
theorem organizationDataSourceRead_missing_name_errors
    (organizations : List DomainOrganization) (name : String)
    (state : OrganizationDataSourceModel)
    (h : organizations.all (fun o => !(o.Name == name)) = true) :
    organizationDataSourceRead state (findOrganizationByName organizations name) =
      OpResult.error "Error on request"
        ("Error: " ++ ("organization " ++ name ++ " not found")) := by
  have hfind : organizations.find? (fun o => o.Name == name) = none := by
    rw [List.find?_eq_none]
    intro o ho hbeq
    have hall := List.all_eq_true.mp h o ho
    simp [hbeq] at hall
  have hcall : findOrganizationByName organizations name =
      Except.error ("organization " ++ name ++ " not found") := by
    simp [findOrganizationByName, hfind]
  rw [hcall]
  rfl

/-- C8 (witness): looking up `"ghost"` in a directory holding only
`"firstorg"` yields the error diagnostic. -/
theorem organizationDataSourceRead_missing_name_errors_witness :
    ((([{ Id := some "o1", Name := "firstorg", Description := none,
          Status := some "active", CreatedAt := "tc", UpdatedAt := "tu" }]
        : List DomainOrganization).all (fun o => !(o.Name == "ghost"))) = true) ∧
    organizationDataSourceRead
        { Name := TFValue.value "ghost", Id := TFValue.null,
          Description := TFValue.null, Status := TFValue.null,
          CreatedAt := TFValue.null, UpdatedAt := TFValue.null }
        (findOrganizationByName
          [{ Id := some "o1", Name := "firstorg", Description := none,
             Status := some "active", CreatedAt := "tc", UpdatedAt := "tu" }]
          "ghost") =
      OpResult.error "Error on request"
        ("Error: " ++ ("organization " ++ "ghost" ++ " not found")) :=
  ⟨by decide, organizationDataSourceRead_missing_name_errors _ _ _ (by decide)⟩

/-- C9 (counterexample): a bucket Create whose plan has an empty
retention-rule list is not rejected: the request sent to the server
carries no retention rules, and given a successful response the
operation completes and writes state. -/
theorem bucketCreate_empty_rules_not_rejected :
    (bucketCreateRequest
        { Name := TFValue.value "new_bucket", Id := TFValue.null,
          OrgID := TFValue.value "oid", Description := TFValue.null,
          RetentioRules := [], RP := TFValue.null, ScehmaType := TFValue.null,
          CreatedAt := TFValue.null, UpdatedAt := TFValue.null }).RetentionRules = [] ∧
    resultState (bucketCreate
        { Name := TFValue.value "new_bucket", Id := TFValue.null,
          OrgID := TFValue.value "oid", Description := TFValue.null,
          RetentioRules := [], RP := TFValue.null, ScehmaType := TFValue.null,
          CreatedAt := TFValue.null, UpdatedAt := TFValue.null }
        (Except.ok
          { Id := some "bid", Name := "new_bucket", Description := none,
            OrgID := some "oid", Rp := none, RetentionRules := [],
            SchemaType := none, CreatedAt := "tc", UpdatedAt := "tu" }))
      ≠ none := by
  refine ⟨rfl, ?_⟩
  decide

/-- C9 (amended): the bucket schema does require `org_id` and the
presence of the `retention_rules` attribute, but nothing rejects an
empty retention-rule list: for every plan whose list is empty, the
bucket sent to `CreateBucket` carries no rules and the create completes
normally on a successful response. -/
theorem bucketCreate_requires_attrs_but_accepts_empty_rules
    (plan : bucketResourceModel) (response : DomainBucket)
    (h : plan.RetentioRules = []) :
    (({ attrName := "org_id", required := true, optional := false, computed := false }
        : AttributeSchema) ∈ bucketSchemaAttributes) ∧
    (({ attrName := "retention_rules", required := true, optional := false, computed := false }
        : AttributeSchema) ∈ bucketSchemaAttributes) ∧
    (bucketCreateRequest plan).RetentionRules = [] ∧
    resultState (bucketCreate plan (Except.ok response)) ≠ none := by
  refine ⟨by decide, by decide, ?_, ?_⟩
  · simp [bucketCreateRequest, retentionRulesToRemote, h]
  · simp [bucketCreate, resultState]

/-- C9 (amended, witness): the amended statement evaluated on the
empty-rule-list plan and a successful server response. -/
theorem bucketCreate_requires_attrs_but_accepts_empty_rules_witness :
    (({ Name := TFValue.value "new_bucket", Id := TFValue.null,
        OrgID := TFValue.value "oid", Description := TFValue.null,
        RetentioRules := [], RP := TFValue.null, ScehmaType := TFValue.null,
        CreatedAt := TFValue.null, UpdatedAt := TFValue.null }
      : bucketResourceModel).RetentioRules = []) ∧
    ((({ attrName := "org_id", required := true, optional := false, computed := false }
        : AttributeSchema) ∈ bucketSchemaAttributes) ∧
    (({ attrName := "retention_rules", required := true, optional := false, computed := false }
        : AttributeSchema) ∈ bucketSchemaAttributes) ∧
    (bucketCreateRequest
        { Name := TFValue.value "new_bucket", Id := TFValue.null,
          OrgID := TFValue.value "oid", Description := TFValue.null,
          RetentioRules := [], RP := TFValue.null, ScehmaType := TFValue.null,
          CreatedAt := TFValue.null, UpdatedAt := TFValue.null }).RetentionRules = [] ∧
    resultState (bucketCreate
        { Name := TFValue.value "new_bucket", Id := TFValue.null,
          OrgID := TFValue.value "oid", Description := TFValue.null,
          RetentioRules := [], RP := TFValue.null, ScehmaType := TFValue.null,
          CreatedAt := TFValue.null, UpdatedAt := TFValue.null }
        (Except.ok
          { Id := some "bid", Name := "new_bucket", Description := none,
            OrgID := some "oid", Rp := none, RetentionRules := [],
            SchemaType := none, CreatedAt := "tc", UpdatedAt := "tu" }))
      ≠ none) :=
  ⟨rfl, bucketCreate_requires_attrs_but_accepts_empty_rules _ _ rfl⟩

/-- C10: on a successful data-source lookup, the written state's
`status` attribute is never assigned (it stays at the configuration
value, null for this computed attribute), and `description` ends up
holding the remote organization's STATUS value — the second of the two
consecutive `Description` assignments in the source overwrites the
description copied from the response. -/
theorem organizationDataSourceRead_status_description_swap
    (state : OrganizationDataSourceModel) (organization : DomainOrganization)
    (h : state.Status = TFValue.null) :
    Option.map OrganizationDataSourceModel.Status
        (resultState (organizationDataSourceRead state (Except.ok organization))) =
      some TFValue.null ∧
    Option.map OrganizationDataSourceModel.Description
        (resultState (organizationDataSourceRead state (Except.ok organization))) =
      some (stringPointerValue organization.Status) := by
  constructor
  · show some state.Status = some TFValue.null
    rw [h]
  · rfl

/-- C10 (witness): evaluated on a null-status configuration and a remote
organization whose status is `"active"` and description `"a desc"`: the
written description is the status value. -/
theorem organizationDataSourceRead_status_description_swap_witness :
    (({ Name := TFValue.value "firstorg", Id := TFValue.null,
        Description := TFValue.null, Status := TFValue.null,
        CreatedAt := TFValue.null, UpdatedAt := TFValue.null }
      : OrganizationDataSourceModel).Status = TFValue.null) ∧
    (Option.map OrganizationDataSourceModel.Status
        (resultState (organizationDataSourceRead
          { Name := TFValue.value "firstorg", Id := TFValue.null,
            Description := TFValue.null, Status := TFValue.null,
            CreatedAt := TFValue.null, UpdatedAt := TFValue.null }
          (Except.ok
            { Id := some "o1", Name := "firstorg", Description := some "a desc",
              Status := some "active", CreatedAt := "tc", UpdatedAt := "tu" }))) =
      some TFValue.null ∧
    Option.map OrganizationDataSourceModel.Description
        (resultState (organizationDataSourceRead
          { Name := TFValue.value "firstorg", Id := TFValue.null,
            Description := TFValue.null, Status := TFValue.null,
            CreatedAt := TFValue.null, UpdatedAt := TFValue.null }
          (Except.ok
            { Id := some "o1", Name := "firstorg", Description := some "a desc",
              Status := some "active", CreatedAt := "tc", UpdatedAt := "tu" }))) =
      some (stringPointerValue (some "active"))) :=
  ⟨rfl, organizationDataSourceRead_status_description_swap _ _ rfl⟩
